import Mathlib

/-!
Verification of the dailyai example bot script
src/examples/fast-bot-metrics/classic-pipeline.py.

The script wires framework components (transport, STT, TTS, LLM) into a
pipeline and registers three event handlers.  We shallowly embed the
script's own logic: the BotSettings pydantic model and its JSON
validation, the three event handlers (as pure state transformers over the
values they close over), the keyword arguments each service constructor
receives from settings and environment variables, and the command-line
parsing done with argparse parse_known_args.  Framework internals
(audio, networking, the pipeline engine) are opaque and not modelled.
-/

/-- JSON values, as produced by parsing an application message or the
settings blob. -/
inductive Json where
  | null : Json
  | bool : Bool → Json
  | num : Int → Json
  | str : String → Json
  | arr : List Json → Json
  | obj : List (String × Json) → Json

/-- Python exceptions that the embedded code can raise. -/
inductive PyErr where
  | typeError : PyErr
  | keyError : PyErr
deriving Repr, DecidableEq

/-- Dictionary lookup on the field list of a JSON object (first binding
wins, as in a Python dict built from parsed JSON). -/
def lookupKey (fields : List (String × Json)) (k : String) : Option Json :=
  match fields.find? (fun p => p.1 == k) with
  | some p => some p.2
  | none => none

/-- Whether one character list starts with another. -/
def startsWithChars : List Char → List Char → Bool
  | [], _ => true
  | _ :: _, [] => false
  | a :: as, b :: bs => a == b && startsWithChars as bs

/-- Whether a character list occurs contiguously inside another. -/
def hasSubChars (needle : List Char) : List Char → Bool
  | [] => startsWithChars needle []
  | b :: bs => startsWithChars needle (b :: bs) || hasSubChars needle bs

/-- Python substring test: needle in hay for strings. -/
def strHasSub (needle hay : String) : Bool :=
  hasSubChars needle.toList hay.toList

/-- Python membership test k in v, for a string k: key membership for
dicts, element equality for lists, substring for strings, TypeError for
null, booleans and numbers. -/
def pyContains (k : String) : Json → Except PyErr Bool
  | Json.obj fields => Except.ok (lookupKey fields k).isSome
  | Json.arr xs => Except.ok (xs.any (fun j => match j with
      | Json.str s => s == k
      | _ => false))
  | Json.str s => Except.ok (strHasSub k s)
  | Json.null => Except.error PyErr.typeError
  | Json.bool _ => Except.error PyErr.typeError
  | Json.num _ => Except.error PyErr.typeError

/-- Python subscript v[k] for a string k: dict lookup (KeyError when
absent), TypeError for every non-dict value. -/
def pyGetItem (v : Json) (k : String) : Except PyErr Json :=
  match v with
  | Json.obj fields =>
      match lookupKey fields k with
      | some w => Except.ok w
      | none => Except.error PyErr.keyError
  | _ => Except.error PyErr.typeError

/-- One conversation message of the in-memory transcript. -/
structure ChatMessage where
  role : String
  content : String
deriving Repr, DecidableEq

/-- Frames the script sends or queues: transport app-message frames,
the pipeline end frame, and LLM context frames. -/
inductive Frame where
  | dailyTransportMessage : Json → String → Frame
  | endFrame : Frame
  | llmMessages : List ChatMessage → Frame

/-- Observable effects of one run of the app-message handler: messages
sent immediately via transport.output().send_message, and frames pushed
into the pipeline via tma_in.push_frame. -/
structure HandlerEffects where
  sent : List Frame
  pushed : List Frame

/-- The handler body ran without producing a reply. -/
def emptyEffects : HandlerEffects := { sent := [], pushed := [] }

/-- Body of the on_app_message handler (the region inside try).  If the
message contains the latency-ping key, extract its ts field, send one
immediate pong and push one pipeline pong, both echoing ts to the
sender; otherwise do nothing.  Any Python error escapes as Except.error. -/
def on_app_message_body (message : Json) (sender : String) :
    Except PyErr HandlerEffects := do
  let c ← pyContains "latency-ping" message
  if c then
    let v ← pyGetItem message "latency-ping"
    let ts ← pyGetItem v "ts"
    pure { sent := [Frame.dailyTransportMessage
                      (Json.obj [("latency-pong-msg-handler", Json.obj [("ts", ts)])])
                      sender],
           pushed := [Frame.dailyTransportMessage
                        (Json.obj [("latency-pong-pipeline-delivery", Json.obj [("ts", ts)])])
                        sender] }
  else
    pure emptyEffects

/-- The on_app_message handler: the body wrapped in the blanket
try/except guard, which logs and discards any exception.  The result is
Except so that an escaping exception would be visible as Except.error;
the guard makes that impossible. -/
def on_app_message (message : Json) (sender : String) :
    Except PyErr HandlerEffects :=
  match on_app_message_body message sender with
  | Except.ok eff => Except.ok eff
  | Except.error _ => Except.ok emptyEffects

/-- Whether a message is a dict containing the latency-ping key. -/
def hasLatencyPingKey : Json → Bool
  | Json.obj fields => (lookupKey fields "latency-ping").isSome
  | _ => false

example : on_app_message (Json.obj [("latency-ping", Json.obj [("ts", Json.num 7)])]) "p" =
    Except.ok
      { sent := [Frame.dailyTransportMessage
                   (Json.obj [("latency-pong-msg-handler", Json.obj [("ts", Json.num 7)])]) "p"],
        pushed := [Frame.dailyTransportMessage
                     (Json.obj [("latency-pong-pipeline-delivery", Json.obj [("ts", Json.num 7)])]) "p"] } :=
  rfl

example : on_app_message (Json.str "hello") "p" = Except.ok emptyEffects := rfl
example : on_app_message (Json.obj [("other", Json.num 1)]) "p" = Except.ok emptyEffects := rfl
example : on_app_message (Json.obj [("latency-ping", Json.num 1)]) "p" = Except.ok emptyEffects := rfl
example : on_app_message Json.null "p" = Except.ok emptyEffects := rfl

/-- Default value of the prompt field of BotSettings. -/
def defaultPrompt : String :=
  "You are a helpful LLM in a WebRTC call. Your goal is to demonstrate your capabilities in a succinct way. Respond to what the user said in a creative and helpful way in a few short sentences."

/-- The BotSettings pydantic model: two required string fields, a string
field with a default, and seven Optional string fields with defaults. -/
structure BotSettings where
  room_url : String
  room_token : String
  bot_name : String
  prompt : Option String
  deepgram_api_key : Option String
  deepgram_voice : Option String
  deepgram_base_url : Option String
  openai_api_key : Option String
  openai_model : Option String
  openai_base_url : Option String
deriving Repr, DecidableEq

/-- Validate a required str field: present strings validate, a missing
field or a non-string value is an error. -/
def vRequiredStr (fields : List (String × Json)) (k : String) :
    Except String String :=
  match lookupKey fields k with
  | some (Json.str s) => Except.ok s
  | some _ => Except.error (k ++ ": input should be a valid string")
  | none => Except.error (k ++ ": field required")

/-- Validate a non-optional str field with a default: absent means the
default, null is not allowed. -/
def vDefaultStr (fields : List (String × Json)) (k : String) (d : String) :
    Except String String :=
  match lookupKey fields k with
  | some (Json.str s) => Except.ok s
  | some _ => Except.error (k ++ ": input should be a valid string")
  | none => Except.ok d

/-- Validate an Optional str field with a default: absent means the
default, null means None, a string means itself. -/
def vOptionalStr (fields : List (String × Json)) (k : String)
    (d : Option String) : Except String (Option String) :=
  match lookupKey fields k with
  | some (Json.str s) => Except.ok (some s)
  | some Json.null => Except.ok none
  | some _ => Except.error (k ++ ": input should be a valid string")
  | none => Except.ok d

/-- BotSettings.model_validate_json applied to an already-parsed JSON
value: the top level must be an object, required fields must be present,
every absent optional field receives its declared default.  Extra fields
are ignored, as in pydantic's default configuration. -/
def model_validate (j : Json) : Except String BotSettings :=
  match j with
  | Json.obj fields => do
      let ru ← vRequiredStr fields "room_url"
      let rt ← vRequiredStr fields "room_token"
      let bn ← vDefaultStr fields "bot_name" "Pipecat"
      let pr ← vOptionalStr fields "prompt" (some defaultPrompt)
      let dk ← vOptionalStr fields "deepgram_api_key" none
      let dv ← vOptionalStr fields "deepgram_voice" (some "aura-asteria-en")
      let db ← vOptionalStr fields "deepgram_base_url"
                 (some "https://api.deepgram.com/v1/speak")
      let ok ← vOptionalStr fields "openai_api_key" none
      let om ← vOptionalStr fields "openai_model" (some "gpt-4o")
      let ob ← vOptionalStr fields "openai_base_url" none
      Except.ok ⟨ru, rt, bn, pr, dk, dv, db, ok, om, ob⟩
  | _ => Except.error "input should be a valid dictionary"

/-- What the top-level entry point did: whether main was invoked,
whether a validation error was printed, and the explicit exit code it
set (the script never sets one). -/
structure StartupOutcome where
  ranMain : Bool
  printedError : Bool
  exitCode : Option Int
deriving Repr, DecidableEq

/-- The try/except ValidationError block guarding main: on success run
main, on validation failure print the error and fall through.  Neither
branch sets an explicit exit code. -/
def runStartup (settingsJson : Json) : StartupOutcome :=
  match model_validate settingsJson with
  | Except.ok _ => { ranMain := true, printedError := false, exitCode := none }
  | Except.error _ => { ranMain := false, printedError := true, exitCode := none }

example :
    model_validate (Json.obj [("room_url", Json.str "u"), ("room_token", Json.str "t")]) =
      Except.ok ⟨"u", "t", "Pipecat", some defaultPrompt, none, some "aura-asteria-en",
        some "https://api.deepgram.com/v1/speak", none, some "gpt-4o", none⟩ := rfl

example :
    runStartup (Json.obj [("room_token", Json.str "t")]) =
      { ranMain := false, printedError := true, exitCode := none } := rfl

/-- The system instruction appended by the first-participant handler. -/
def introMessage : ChatMessage :=
  { role := "system", content := "Please introduce yourself to the user." }

/-- The initial transcript built in main (one hardcoded system prompt). -/
def initialMessages : List ChatMessage :=
  [{ role := "system",
     content := "You are a helpful assistant in an audio conversation.\n\nYour goal is to demonstrate your capabilities in a succinct way. Your output will be converted to audio so don\x27t include special characters in your answers.\n\nRespond to what the user said in a creative and helpful way. Be concise in your answers to basic questions. If you are asked to elaborate or tell a story, provide a longer response.\n" }]

/-- The mutable values the handlers close over: the shared messages
list and the frames queued onto the pipeline task. -/
structure BotState where
  messages : List ChatMessage
  queued : List Frame

/-- The on_participant_left handler: queue one EndFrame onto the task.
The participant and reason arguments are unused by the body. -/
def on_participant_left (st : BotState) (reason : String) : BotState :=
  { st with queued := st.queued ++ [Frame.endFrame] }

/-- The on_first_participant_joined handler: append the introduction
instruction to the shared messages list, then queue one
LLMMessagesFrame carrying that list. -/
def on_first_participant_joined (st : BotState) : BotState :=
  { messages := st.messages ++ [introMessage],
    queued := st.queued ++ [Frame.llmMessages (st.messages ++ [introMessage])] }

/-- Test for the pipeline termination frame. -/
def isEndFrame : Frame → Bool
  | Frame.endFrame => true
  | _ => false

/-- Heap location of the messages list allocated in main. -/
def messagesLoc : Nat := 0

/-- Reference-level view of main's wiring: a heap of message lists and,
for each response aggregator, the location of the list it was handed at
construction.  In the script both aggregators receive the very same
list object. -/
structure MainWiring where
  heap : Nat → List ChatMessage
  tmaInMessages : Nat
  tmaOutMessages : Nat

/-- The wiring main builds: one messages list allocated at messagesLoc,
passed by reference to LLMUserResponseAggregator (tma_in) and
LLMAssistantResponseAggregator (tma_out). -/
def setupWiring : MainWiring :=
  { heap := fun l => if l == messagesLoc then initialMessages else [],
    tmaInMessages := messagesLoc,
    tmaOutMessages := messagesLoc }

/-- The first-participant handler at the reference level: it mutates the
list object at messagesLoc (the messages variable it closes over) in
place. -/
def appendIntroAt (w : MainWiring) : MainWiring :=
  { w with heap := fun l => if l == messagesLoc then w.heap l ++ [introMessage] else w.heap l }

/-- The list an aggregator holding location loc observes. -/
def aggView (w : MainWiring) (loc : Nat) : List ChatMessage :=
  w.heap loc

/-- Process environment: os.getenv. -/
def Env : Type := String → Option String

/-- Python truthiness of an os.getenv result: set and non-empty. -/
def truthy : Option String → Bool
  | none => false
  | some s => !(s == "")

/-- The conditional kwargs idiom of the script: pass the keyword iff the
environment value is truthy. -/
def optionalKw (k : String) (v : Option String) : List (String × Option String) :=
  match v with
  | some u => if u == "" then [] else [(k, some u)]
  | none => []

/-- Positional arguments of the DailyTransport constructor (the
DailyParams flags are hardcoded and omitted). -/
structure DailyTransportArgs where
  room_url : String
  room_token : String
  bot_name : String
deriving Repr, DecidableEq

/-- DailyTransport(settings.room_url, settings.room_token,
settings.bot_name, ...). -/
def transportArgs (s : BotSettings) : DailyTransportArgs :=
  { room_url := s.room_url, room_token := s.room_token, bot_name := s.bot_name }

/-- Keyword arguments passed to DeepgramSTTService: api_key always, url
only when DEEPGRAM_STT_URL is set and non-empty. -/
def sttKwargs (env : Env) : List (String × Option String) :=
  ("api_key", env "DEEPGRAM_API_KEY") :: optionalKw "url" (env "DEEPGRAM_STT_URL")

/-- Keyword arguments passed to ClearableDeepgramTTSService: name,
api_key and the hardcoded voice always, base_url only when
DEEPGRAM_TTS_BASE_URL is set and non-empty.  The aiohttp session object
is opaque and omitted. -/
def ttsKwargs (env : Env) : List (String × Option String) :=
  ("name", some "Voice") :: ("api_key", env "DEEPGRAM_API_KEY") ::
    ("voice", some "aura-asteria-en") ::
      optionalKw "base_url" (env "DEEPGRAM_TTS_BASE_URL")

/-- Keyword arguments passed to OpenAILLMService: name, api_key, model
and base_url are all passed unconditionally, each carrying the raw
os.getenv result (None when the variable is unset). -/
def llmKwargs (env : Env) : List (String × Option String) :=
  [("name", some "LLM"), ("api_key", env "OPENAI_API_KEY"),
   ("model", env "OPENAI_MODEL"), ("base_url", env "OPENAI_BASE_URL")]

/-- Whether a keyword argument named k appears in a call. -/
def kwargPassed (kws : List (String × Option String)) (k : String) : Bool :=
  kws.any (fun p => p.1 == k)

/-- The value of keyword argument k in a call, when passed. -/
def kwargValue (kws : List (String × Option String)) (k : String) :
    Option (Option String) :=
  (kws.find? (fun p => p.1 == k)).map (fun p => p.2)

/-- Everything main computes from its inputs before starting the
pipeline: the constructor arguments of the four services and the initial
transcript. -/
structure MainConfig where
  transport : DailyTransportArgs
  stt : List (String × Option String)
  tts : List (String × Option String)
  llm : List (String × Option String)
  initial : List ChatMessage
deriving Repr, DecidableEq

/-- The configuration main derives from the validated settings and the
process environment. -/
def mainConfig (env : Env) (s : BotSettings) : MainConfig :=
  { transport := transportArgs s,
    stt := sttKwargs env,
    tts := ttsKwargs env,
    llm := llmKwargs env,
    initial := initialMessages }

/-- Error text for a missing settings flag. -/
def requiredMsg : String :=
  "the following arguments are required: -s/--settings"

/-- Error text for a settings flag with no value. -/
def expectedArgMsg : String :=
  "argument -s/--settings: expected one argument"

/-- Error text for the help option given an explicit argument. -/
def helpArgMsg : String :=
  "argument -h/--help: ignored explicit argument"

/-- Splits a character list at its first equals sign, when present. -/
def splitEqChars : List Char → List Char × Option (List Char)
  | [] => ([], none)
  | c :: cs =>
      if c == '=' then ([], some cs)
      else
        let r := splitEqChars cs
        (c :: r.1, r.2)

/-- Splits a token at its first equals sign: the part before it and,
when an equals sign is present, the part after it. -/
def splitAtEq (s : String) : String × Option String :=
  let r := splitEqChars s.toList
  (String.mk r.1, r.2.map String.mk)

/-- How the argument parser reads one token. -/
inductive ArgTok where
  | flagTok : ArgTok
  | eqTok : String → ArgTok
  | helpTok : ArgTok
  | helpArgTok : ArgTok
  | sepTok : ArgTok
  | other : ArgTok
deriving Repr, DecidableEq

/-- Token classification of argparse for this parser, which holds the
single required option (short -s, long --settings) and the auto-added
help option (short -h, long --help).  Long tokens match either option
by any non-empty unambiguous prefix of its name (allow_abbrev default),
optionally carrying an inline =VALUE; the help option rejects an
inline value.  A short token -sVALUE carries its value attached, and a
short token starting -h fires help while its bundled letters are
parsed.  The bare double dash is the positional separator.  Every
remaining token is unknown to the parser. -/
def classifyArg (a : String) : ArgTok :=
  if a == "--" then ArgTok.sepTok
  else if a.take 2 == "--" then
    let r := splitAtEq (a.drop 2)
    if r.1 == "" then ArgTok.other
    else if startsWithChars r.1.toList "settings".toList then
      match r.2 with
      | none => ArgTok.flagTok
      | some v => ArgTok.eqTok v
    else if startsWithChars r.1.toList "help".toList then
      match r.2 with
      | none => ArgTok.helpTok
      | some _ => ArgTok.helpArgTok
    else ArgTok.other
  else if a.take 2 == "-h" then ArgTok.helpTok
  else if a == "-s" then ArgTok.flagTok
  else if a.take 2 == "-s" then ArgTok.eqTok (a.drop 2)
  else ArgTok.other

/-- Outcome of argument parsing: the settings value with the ignored
unknown tokens, a help exit (usage printed, process exits), or an
argparse error exit. -/
inductive CliResult where
  | parsed : String → List String → CliResult
  | helpShown : CliResult
  | cliError : String → CliResult
deriving Repr, DecidableEq

/-- After the positional separator the remaining tokens are positional;
with no positional parameters declared they are all unknown.  The
required settings option must have been seen by then. -/
def parseFinish (rest : List String) (acc : Option String)
    (unk : List String) : CliResult :=
  match acc with
  | none => CliResult.cliError requiredMsg
  | some v => CliResult.parsed v (unk.reverse ++ rest)

/-- The scan itself.  The Bool records that the previous token was the
settings flag, so the current token is consumed as its value (a later
occurrence overrides an earlier one).  Argparse's refusal of
option-like tokens as option values is not modelled. -/
def parseLoop : List String → Bool → Option String → List String →
    CliResult
  | [], true, _, _ => CliResult.cliError expectedArgMsg
  | [], false, none, _ => CliResult.cliError requiredMsg
  | [], false, some v, unk => CliResult.parsed v unk.reverse
  | a :: rest, true, _, unk => parseLoop rest false (some a) unk
  | a :: rest, false, acc, unk =>
      match classifyArg a with
      | ArgTok.flagTok => parseLoop rest true acc unk
      | ArgTok.eqTok v => parseLoop rest false (some v) unk
      | ArgTok.helpTok => CliResult.helpShown
      | ArgTok.helpArgTok => CliResult.cliError helpArgMsg
      | ArgTok.sepTok => parseFinish rest acc unk
      | ArgTok.other => parseLoop rest false acc (a :: unk)

/-- args, unknown = parser.parse_known_args(): the settings value paired
with the ignored unknown arguments, or a help or error exit. -/
def parse_known_args (argv : List String) : CliResult :=
  parseLoop argv false none []

example : parse_known_args ["foo", "-s", "abc", "--verbose", "bar"] =
    CliResult.parsed "abc" ["foo", "--verbose", "bar"] := rfl
example : parse_known_args ["foo", "bar"] = CliResult.cliError requiredMsg := rfl
example : parse_known_args ["--settings=xyz"] = CliResult.parsed "xyz" [] := rfl
example : parse_known_args ["--set", "xyz"] = CliResult.parsed "xyz" [] := rfl
example : parse_known_args ["--set=xyz"] = CliResult.parsed "xyz" [] := rfl
example : parse_known_args ["-sxyz"] = CliResult.parsed "xyz" [] := rfl
example : parse_known_args ["-h", "-s", "abc"] = CliResult.helpShown := rfl
example : parse_known_args ["--help"] = CliResult.helpShown := rfl
example : parse_known_args ["--he"] = CliResult.helpShown := rfl
example : parse_known_args ["-s", "abc", "--", "--settings"] =
    CliResult.parsed "abc" ["--settings"] := rfl
example : classifyArg "--verbose" = ArgTok.other := rfl
example : classifyArg "-x" = ArgTok.other := rfl

theorem on_app_message_never_throws (m : Json) (s : String) :
    (on_app_message m s).isOk = true := by
  unfold on_app_message
  cases on_app_message_body m s <;> rfl

/-- C1: an application message whose latency-ping key carries a dict
with a ts field makes the handler send exactly one immediate
latency-pong-msg-handler reply echoing ts to the sender, and push
exactly one latency-pong-pipeline-delivery frame echoing ts for
ordered delivery. -/
theorem latency_ping_two_replies (fields inner : List (String × Json))
    (ts : Json) (sender : String)
    (hkey : lookupKey fields "latency-ping" = some (Json.obj inner))
    (hts : lookupKey inner "ts" = some ts) :
    on_app_message (Json.obj fields) sender =
      Except.ok
        { sent := [Frame.dailyTransportMessage
                     (Json.obj [("latency-pong-msg-handler", Json.obj [("ts", ts)])])
                     sender],
          pushed := [Frame.dailyTransportMessage
                       (Json.obj [("latency-pong-pipeline-delivery", Json.obj [("ts", ts)])])
                       sender] } := by
  simp [on_app_message, on_app_message_body, pyContains, pyGetItem, hkey, hts,
    Bind.bind, Except.bind, pure, Except.pure]

/-- Witness for latency_ping_two_replies at a concrete ping message. -/
theorem latency_ping_two_replies_witness :
    on_app_message (Json.obj [("latency-ping", Json.obj [("ts", Json.num 123)])]) "client7" =
      Except.ok
        { sent := [Frame.dailyTransportMessage
                     (Json.obj [("latency-pong-msg-handler", Json.obj [("ts", Json.num 123)])])
                     "client7"],
          pushed := [Frame.dailyTransportMessage
                       (Json.obj [("latency-pong-pipeline-delivery", Json.obj [("ts", Json.num 123)])])
                       "client7"] } :=
  latency_ping_two_replies [("latency-ping", Json.obj [("ts", Json.num 123)])]
    [("ts", Json.num 123)] (Json.num 123) "client7" rfl rfl

/-- C4: a message without the latency-ping key produces no reply at
all, and for every message whatsoever the blanket guard keeps any
exception from escaping the handler. -/
theorem no_ping_no_reply_no_escape (m : Json) (s : String) :
    (hasLatencyPingKey m = false → on_app_message m s = Except.ok emptyEffects) ∧
    (on_app_message m s).isOk = true := by
  constructor
  · intro h
    cases m with
    | null => rfl
    | bool b => rfl
    | num n => rfl
    | str str =>
        cases hb : strHasSub "latency-ping" str <;>
          simp [on_app_message, on_app_message_body, pyContains, pyGetItem, hb,
            Bind.bind, Except.bind, pure, Except.pure]
    | arr xs =>
        cases hb : xs.any (fun j => match j with
            | Json.str s => s == "latency-ping"
            | _ => false) <;>
          simp [on_app_message, on_app_message_body, pyContains, pyGetItem, hb,
            Bind.bind, Except.bind, pure, Except.pure]
    | obj fields =>
        simp only [hasLatencyPingKey] at h
        simp [on_app_message, on_app_message_body, pyContains, h,
          Bind.bind, Except.bind, pure, Except.pure]
  · exact on_app_message_never_throws m s

/-- Witness for no_ping_no_reply_no_escape at a concrete message. -/
theorem no_ping_no_reply_no_escape_witness :
    on_app_message (Json.obj [("chat", Json.str "hi")]) "client7" = Except.ok emptyEffects ∧
    (on_app_message (Json.obj [("chat", Json.str "hi")]) "client7").isOk = true :=
  ⟨(no_ping_no_reply_no_escape (Json.obj [("chat", Json.str "hi")]) "client7").1 (by decide),
   (no_ping_no_reply_no_escape (Json.obj [("chat", Json.str "hi")]) "client7").2⟩

/-- C2: a settings object with room_url and room_token present as
strings and every optional field omitted validates successfully, and
every omitted field carries its declared default. -/
theorem settings_defaults (fields : List (String × Json)) (u t : String)
    (h1 : lookupKey fields "room_url" = some (Json.str u))
    (h2 : lookupKey fields "room_token" = some (Json.str t))
    (h3 : lookupKey fields "bot_name" = none)
    (h4 : lookupKey fields "prompt" = none)
    (h5 : lookupKey fields "deepgram_api_key" = none)
    (h6 : lookupKey fields "deepgram_voice" = none)
    (h7 : lookupKey fields "deepgram_base_url" = none)
    (h8 : lookupKey fields "openai_api_key" = none)
    (h9 : lookupKey fields "openai_model" = none)
    (h10 : lookupKey fields "openai_base_url" = none) :
    model_validate (Json.obj fields) =
      Except.ok
        { room_url := u, room_token := t, bot_name := "Pipecat",
          prompt := some defaultPrompt,
          deepgram_api_key := none,
          deepgram_voice := some "aura-asteria-en",
          deepgram_base_url := some "https://api.deepgram.com/v1/speak",
          openai_api_key := none,
          openai_model := some "gpt-4o",
          openai_base_url := none } := by
  simp [model_validate, vRequiredStr, vDefaultStr, vOptionalStr,
    h1, h2, h3, h4, h5, h6, h7, h8, h9, h10,
    Bind.bind, Except.bind, pure, Except.pure]

/-- Witness for settings_defaults at a concrete minimal settings blob. -/
theorem settings_defaults_witness :
    model_validate (Json.obj [("room_url", Json.str "https://demo.daily.co/room"),
                              ("room_token", Json.str "tok")]) =
      Except.ok
        { room_url := "https://demo.daily.co/room", room_token := "tok",
          bot_name := "Pipecat",
          prompt := some defaultPrompt,
          deepgram_api_key := none,
          deepgram_voice := some "aura-asteria-en",
          deepgram_base_url := some "https://api.deepgram.com/v1/speak",
          openai_api_key := none,
          openai_model := some "gpt-4o",
          openai_base_url := none } :=
  settings_defaults [("room_url", Json.str "https://demo.daily.co/room"),
                     ("room_token", Json.str "tok")]
    "https://demo.daily.co/room" "tok" rfl rfl rfl rfl rfl rfl rfl rfl rfl rfl

/-- C3: when settings validation fails, the entry point prints the
error, never invokes main, and sets no explicit exit code. -/
theorem invalid_settings_no_pipeline (j : Json) (e : String)
    (h : model_validate j = Except.error e) :
    runStartup j = { ranMain := false, printedError := true, exitCode := none } := by
  simp [runStartup, h]

/-- Witness for invalid_settings_no_pipeline at a settings blob missing
room_url. -/
theorem invalid_settings_no_pipeline_witness :
    runStartup (Json.obj [("room_token", Json.str "tok")]) =
      { ranMain := false, printedError := true, exitCode := none } :=
  invalid_settings_no_pipeline (Json.obj [("room_token", Json.str "tok")])
    "room_url: field required" rfl

/-- C5: the participant-left handler queues exactly one EndFrame per
event, leaving the transcript untouched. -/
theorem participant_left_one_end_frame (st : BotState) (reason : String) :
    (on_participant_left st reason).queued = st.queued ++ [Frame.endFrame] ∧
    (on_participant_left st reason).messages = st.messages ∧
    (on_participant_left st reason).queued.countP isEndFrame =
      st.queued.countP isEndFrame + 1 := by
  refine ⟨rfl, rfl, ?_⟩
  simp [on_participant_left, List.countP_append, List.countP_cons, isEndFrame]

theorem iterate_intro_messages (n : Nat) : ∀ st : BotState,
    (on_first_participant_joined^[n] st).messages =
      st.messages ++ List.replicate n introMessage := by
  induction n with
  | zero => intro st; simp
  | succ n ih =>
      intro st
      rw [Function.iterate_succ_apply, ih]
      simp [on_first_participant_joined, List.replicate_succ]

/-- C6: each invocation of the first-participant handler appends
exactly one introduction instruction to the shared transcript and
queues exactly one LLMMessagesFrame carrying the updated list; n
invocations leave n copies of the instruction. -/
theorem first_participant_appends_intro (st : BotState) (n : Nat) :
    (on_first_participant_joined st).messages = st.messages ++ [introMessage] ∧
    (on_first_participant_joined st).queued =
      st.queued ++ [Frame.llmMessages (st.messages ++ [introMessage])] ∧
    (on_first_participant_joined^[n] st).messages =
      st.messages ++ List.replicate n introMessage :=
  ⟨rfl, rfl, iterate_intro_messages n st⟩

theorem iterate_appendIntroAt (n : Nat) : ∀ w : MainWiring,
    (appendIntroAt^[n] w).heap messagesLoc =
      w.heap messagesLoc ++ List.replicate n introMessage := by
  induction n with
  | zero => intro w; simp
  | succ n ih =>
      intro w
      rw [Function.iterate_succ_apply, ih]
      simp [appendIntroAt, messagesLoc, List.replicate_succ]

/-- C8: both response aggregators hold a reference to the one list
object allocated in main, and after any number of introduction
appends both observe the same updated transcript. -/
theorem shared_transcript_list (n : Nat) :
    setupWiring.tmaInMessages = setupWiring.tmaOutMessages ∧
    aggView (appendIntroAt^[n] setupWiring) setupWiring.tmaInMessages =
      aggView (appendIntroAt^[n] setupWiring) setupWiring.tmaOutMessages ∧
    aggView (appendIntroAt^[n] setupWiring) setupWiring.tmaInMessages =
      initialMessages ++ List.replicate n introMessage := by
  refine ⟨rfl, rfl, ?_⟩
  show (appendIntroAt^[n] setupWiring).heap messagesLoc = _
  rw [iterate_appendIntroAt]
  simp [setupWiring, messagesLoc]

/-- Counterexample to C7 as stated: with an empty environment the
OPENAI_BASE_URL variable is unset, yet the base_url keyword is still
passed to OpenAILLMService (carrying None), so the endpoint override is
not passed iff the variable is set and non-empty. -/
theorem openai_base_url_always_passed :
    kwargPassed (llmKwargs (fun _ => none)) "base_url" = true ∧
    truthy ((fun _ => none : Env) "OPENAI_BASE_URL") = false ∧
    kwargPassed (llmKwargs (fun _ => none)) "base_url" ≠
      truthy ((fun _ => none : Env) "OPENAI_BASE_URL") :=
  ⟨rfl, rfl, by decide⟩

/-- C7 (amended): the transport is built from the settings record's
room_url, room_token and bot_name; the speech and language services are
built from the environment variables; the Deepgram endpoint overrides
(url for STT, base_url for TTS) are passed iff their variables are set
and non-empty; the OpenAI api_key, model and base_url keywords are
passed unconditionally, each carrying the raw environment value. -/
theorem service_construction_sources (env : Env) (s : BotSettings) :
    (mainConfig env s).transport =
      { room_url := s.room_url, room_token := s.room_token, bot_name := s.bot_name } ∧
    kwargValue (mainConfig env s).stt "api_key" = some (env "DEEPGRAM_API_KEY") ∧
    kwargPassed (mainConfig env s).stt "url" = truthy (env "DEEPGRAM_STT_URL") ∧
    kwargValue (mainConfig env s).tts "api_key" = some (env "DEEPGRAM_API_KEY") ∧
    kwargValue (mainConfig env s).tts "voice" = some (some "aura-asteria-en") ∧
    kwargPassed (mainConfig env s).tts "base_url" = truthy (env "DEEPGRAM_TTS_BASE_URL") ∧
    kwargValue (mainConfig env s).llm "api_key" = some (env "OPENAI_API_KEY") ∧
    kwargValue (mainConfig env s).llm "model" = some (env "OPENAI_MODEL") ∧
    kwargPassed (mainConfig env s).llm "base_url" = true ∧
    kwargValue (mainConfig env s).llm "base_url" = some (env "OPENAI_BASE_URL") := by
  have stt_key : ∀ v : Option String,
      kwargPassed (("api_key", env "DEEPGRAM_API_KEY") :: optionalKw "url" v) "url" =
        truthy v := by
    intro v
    match v with
    | none => rfl
    | some u =>
        by_cases hu : u = ""
        · subst hu; rfl
        · have hb : (u == "") = false := by simp [hu]
          simp [optionalKw, hb, kwargPassed, truthy]
  have tts_key : ∀ v : Option String,
      kwargPassed (("name", some "Voice") :: ("api_key", env "DEEPGRAM_API_KEY") ::
          ("voice", some "aura-asteria-en") :: optionalKw "base_url" v) "base_url" =
        truthy v := by
    intro v
    match v with
    | none => rfl
    | some u =>
        by_cases hu : u = ""
        · subst hu; rfl
        · have hb : (u == "") = false := by simp [hu]
          simp [optionalKw, hb, kwargPassed, truthy]
  exact ⟨rfl, rfl, stt_key (env "DEEPGRAM_STT_URL"), rfl, rfl,
    tts_key (env "DEEPGRAM_TTS_BASE_URL"), rfl, rfl, rfl, rfl⟩

theorem parseLoop_all_unknown_some (v : String) :
    ∀ (l unk : List String), (∀ a ∈ l, classifyArg a = ArgTok.other) →
      parseLoop l false (some v) unk = CliResult.parsed v (unk.reverse ++ l) := by
  intro l
  induction l with
  | nil => intro unk _; simp [parseLoop]
  | cons a t ih =>
      intro unk h
      have ha : classifyArg a = ArgTok.other := h a (List.mem_cons_self a t)
      rw [parseLoop, ha]
      show parseLoop t false (some v) (a :: unk) = _
      rw [ih (a :: unk) (fun x hx => h x (List.mem_cons_of_mem a hx))]
      simp

theorem parseLoop_all_unknown_none :
    ∀ (l unk : List String), (∀ a ∈ l, classifyArg a = ArgTok.other) →
      parseLoop l false none unk = CliResult.cliError requiredMsg := by
  intro l
  induction l with
  | nil => intro unk _; simp [parseLoop]
  | cons a t ih =>
      intro unk h
      have ha : classifyArg a = ArgTok.other := h a (List.mem_cons_self a t)
      rw [parseLoop, ha]
      show parseLoop t false none (a :: unk) = _
      exact ih (a :: unk) (fun x hx => h x (List.mem_cons_of_mem a hx))

theorem parseLoop_finds_flag (v : String) (post : List String)
    (hpost : ∀ a ∈ post, classifyArg a = ArgTok.other) :
    ∀ (pre : List String) (acc : Option String) (unk : List String),
      (∀ a ∈ pre, classifyArg a = ArgTok.other) →
      parseLoop (pre ++ "-s" :: v :: post) false acc unk =
        CliResult.parsed v (unk.reverse ++ (pre ++ post)) := by
  intro pre
  induction pre with
  | nil =>
      intro acc unk _
      rw [List.nil_append, parseLoop,
        show classifyArg "-s" = ArgTok.flagTok from rfl]
      show parseLoop (v :: post) true acc unk = _
      rw [parseLoop]
      rw [parseLoop_all_unknown_some v post unk hpost]
      simp
  | cons a t ih =>
      intro acc unk h
      have ha : classifyArg a = ArgTok.other := h a (List.mem_cons_self a t)
      rw [List.cons_append, parseLoop, ha]
      show parseLoop (t ++ "-s" :: v :: post) false acc (a :: unk) = _
      rw [ih acc (a :: unk) (fun x hx => h x (List.mem_cons_of_mem a hx))]
      simp

/-- C10: main consumes only room_url, room_token and bot_name from the
settings record: two validated records agreeing on those three fields
yield identical service configurations, whatever their other fields. -/
theorem settings_noninterference (env : Env) (s1 s2 : BotSettings)
    (hu : s1.room_url = s2.room_url) (ht : s1.room_token = s2.room_token)
    (hb : s1.bot_name = s2.bot_name) :
    mainConfig env s1 = mainConfig env s2 := by
  simp [mainConfig, transportArgs, hu, ht, hb]

/-- Witness for settings_noninterference: two records sharing only the
three consumed fields produce the same configuration. -/
theorem settings_noninterference_witness :
    mainConfig (fun _ => none)
      ⟨"https://demo.daily.co/room", "tok", "Bot",
        some "another prompt", some "dgkey", some "voice2", some "http://dg.local",
        some "oaikey", some "gpt-x", some "http://oai.local"⟩ =
    mainConfig (fun _ => none)
      ⟨"https://demo.daily.co/room", "tok", "Bot",
        none, none, none, none, none, none, none⟩ :=
  settings_noninterference (fun _ => none) _ _ rfl rfl rfl
